import Mathlib

/-!
# Animation Studio: the generation workflow controller

A shallow embedding of the two React controllers of the frontend,
`App.jsx` and `App_simple.jsx`.  Every `useState` cell becomes a field of a
record, every handler becomes a function from the record of the render in
which the handler was created to the record after its setters have been
applied.  Whatever a handler obtains from the network (the outcome of a
`fetch`, the payload of a response) is an explicit argument, where `none`
stands for a rejected promise, that is, for the `catch` branch.

JavaScript values are embedded as follows.

* `currentStep` only ever holds one of five string literals: the type `Step`.
* `selectedTheme`, `animationId`: `null` or a string, `Option String`.
* `selectedDuration`: `null` or a number, `Option Int`.
* an optional field of a JSON payload: `Option`, with `none` for `undefined`.
* truthiness (`if (x)`, `x || y`, `x && y`) is spelled out by `truthyStr`,
  `truthyNum`, `orZero` and `orEmpty`.
-/

namespace Workflow

/-- The five literals stored in `currentStep`: "theme", "duration", "generate",
"generating" and "video". -/
inductive Step where
  | theme
  | duration
  | generate
  | generating
  | video
  deriving DecidableEq

/-- One entry of the catalog served by `GET /themes`. -/
structure Theme where
  id : String
  name : String
  description : String
  icon : String
  deriving DecidableEq

/-- The `result` object of a completed status report. -/
structure VideoResult where
  final_video_url : String
  deriving DecidableEq

/-- An animation id as it comes out of `data.animation_id`: absent or a string. -/
abbrev AnimId := Option String

/-- Payload of `GET /themes`; the controllers read `data.themes`. -/
structure ThemesData where
  themes : Option (List Theme)
  deriving DecidableEq

/-- Payload of `POST /generate`; the controllers read `animation_id`. -/
structure GenerateData where
  animation_id : AnimId
  deriving DecidableEq

/-- Payload of `GET /status/<id>`.  A missing `status` behaves like any string
other than "completed" and "error". -/
structure StatusData where
  status : String
  progress : Option Int
  current_step : Option String
  result : Option VideoResult
  error : Option String
  deriving DecidableEq

/-- The constant `[30, 60, 120, 180, 240, 300]` of both controllers. -/
def durations : List Int := [30, 60, 120, 180, 240, 300]

/-- Truthiness of a value that is `null` or a string. -/
def truthyStr : Option String → Bool
  | none => false
  | some v => decide (v ≠ "")

/-- Truthiness of a value that is `null` or a number. -/
def truthyNum : Option Int → Bool
  | none => false
  | some n => decide (n ≠ 0)

/-- The expression `x || 0` for an optional number. -/
def orZero (x : Option Int) : Int :=
  match x with
  | some n => if truthyNum (some n) then n else 0
  | none => 0

/-- The expression `x || ""` for an optional string. -/
def orEmpty (x : Option String) : String :=
  match x with
  | some v => if truthyStr (some v) then v else ""
  | none => ""

/-- The ids of a catalog, in the order served. -/
def themeIds (themes : List Theme) : List String := themes.map Theme.id

/-- A catalog with the single theme "space", used in the examples. -/
def sampleCatalog : ThemesData :=
  { themes := some [{ id := "space", name := "Espace", description := "Voyage", icon := "*" }] }

/-- A completed status report, used in the examples. -/
def sampleCompleted : StatusData :=
  { status := "completed"
    progress := some 100
    current_step := some "Montage final"
    result := some { final_video_url := "https://x/y.mp4" }
    error := none }

/-- A status report that is neither completed nor an error, used in the
examples. -/
def samplePending (percent : Int) (label : String) : StatusData :=
  { status := "pending"
    progress := some percent
    current_step := some label
    result := none
    error := none }

/-! ## `App.jsx` -/

namespace App

/-- The eight `useState` cells of `App.jsx` (lines 5 to 12). -/
structure State where
  themes : List Theme
  selectedTheme : Option String
  selectedDuration : Option Int
  currentStep : Step
  animationId : AnimId
  progress : Int
  currentStepText : String
  result : Option VideoResult
  deriving DecidableEq

/-- The initial values given to `useState`. -/
def initialState : State :=
  { themes := []
    selectedTheme := none
    selectedDuration := none
    currentStep := Step.theme
    animationId := none
    progress := 0
    currentStepText := ""
    result := none }

/-- Handler `loadThemes` (lines 20 to 28): on success store `data.themes || []`, on
failure only log. -/
def loadThemes (s : State) (outcome : Option ThemesData) : State :=
  match outcome with
  | some data => { s with themes := data.themes.getD [] }
  | none => s

/-- Handler `handleThemeSelect` (lines 30 to 33). -/
def handleThemeSelect (s : State) (themeId : String) : State :=
  { s with selectedTheme := some themeId, currentStep := Step.duration }

/-- Handler `handleDurationSelect` (lines 35 to 38). -/
def handleDurationSelect (s : State) (duration : Int) : State :=
  { s with selectedDuration := some duration, currentStep := Step.generate }

/-- Handler `handleGenerate` up to its first `await` (line 42). -/
def handleGenerate_start (s : State) : State :=
  { s with currentStep := Step.generating }

/-- Handler `handleGenerate` after the `POST /generate` has settled (lines 50 to 58).
Returns the state and the status queries issued: on success `animationId` is
stored and `checkProgress(data.animation_id)` is called, on failure the `catch`
branch only logs. -/
def handleGenerate_settle (s : State) (outcome : Option GenerateData) : State × List AnimId :=
  match outcome with
  | some data => ({ s with animationId := data.animation_id }, [data.animation_id])
  | none => (s, [])

/-- Handler `handleGenerate` (lines 40 to 59) run from click to settlement. -/
def handleGenerate (s : State) (outcome : Option GenerateData) : State × List AnimId :=
  handleGenerate_settle (handleGenerate_start s) outcome

/-- Function `checkProgress` (lines 61 to 82), given the outcome of its status query.
Returns the state and the queries scheduled through `setTimeout`. -/
def checkProgress (s : State) (id : AnimId) (response : Option StatusData) : State × List AnimId :=
  match response with
  | none => (s, [])
  | some data =>
    let s1 : State :=
      { s with progress := orZero data.progress, currentStepText := orEmpty data.current_step }
    if data.status = "completed" then
      ({ s1 with result := data.result, currentStep := Step.video }, [])
    else if data.status = "error" then
      ({ s1 with currentStep := Step.generate }, [])
    else
      (s1, [id])

/-- Handler `restart` (lines 94 to 101). -/
def restart (s : State) : State :=
  { s with
    currentStep := Step.theme
    selectedTheme := none
    selectedDuration := none
    animationId := none
    progress := 0
    result := none }

/-- The controller together with its outstanding asynchronous work.  Nothing in
`App.jsx` ever clears a timer or aborts a request, so the only way a request
leaves `posting` or a query leaves `pending` is by being answered. -/
structure World where
  app : State
  posting : Nat
  pending : List AnimId
  deriving DecidableEq

/-- What can happen to the controller: a click offered by the rendered view, or
the settlement of an outstanding request. -/
inductive Event where
  | selectTheme (themeId : String)
  | selectDuration (duration : Int)
  | generate
  | generateSettled (outcome : Option GenerateData)
  | statusResponse (response : Option StatusData)
  | restart

/-- When an event can occur: the clicks follow the conditions of the JSX
(lines 113, 133, 151, 182), the settlements need outstanding work. -/
def enabled (w : World) : Event → Bool
  | Event.selectTheme themeId =>
      decide (w.app.currentStep = Step.theme) && decide (themeId ∈ themeIds w.app.themes)
  | Event.selectDuration duration =>
      decide (w.app.currentStep = Step.duration) && decide (duration ∈ durations)
  | Event.generate => decide (w.app.currentStep = Step.generate)
  | Event.generateSettled _ => decide (0 < w.posting)
  | Event.statusResponse _ => decide (w.pending ≠ [])
  | Event.restart => decide (w.app.currentStep = Step.video) && w.app.result.isSome

/-- Delivery of the answer to the oldest outstanding status query. -/
def deliver (w : World) (response : Option StatusData) : World :=
  match w.pending with
  | [] => w
  | id :: rest =>
    { w with
      app := (checkProgress w.app id response).1
      pending := rest ++ (checkProgress w.app id response).2 }

/-- The effect of an event on the world. -/
def step (w : World) : Event → World
  | Event.selectTheme themeId => { w with app := handleThemeSelect w.app themeId }
  | Event.selectDuration duration => { w with app := handleDurationSelect w.app duration }
  | Event.generate => { w with app := handleGenerate_start w.app, posting := w.posting + 1 }
  | Event.generateSettled outcome =>
      { app := (handleGenerate_settle w.app outcome).1
        posting := w.posting - 1
        pending := w.pending ++ (handleGenerate_settle w.app outcome).2 }
  | Event.statusResponse response => deliver w response
  | Event.restart => { w with app := restart w.app }

/-- The world once the mount effect `loadThemes()` has settled. -/
def boot (outcome : Option ThemesData) : World :=
  { app := loadThemes initialState outcome, posting := 0, pending := [] }

/-- The worlds reachable through the rendered views. -/
inductive Reachable : World → Prop where
  | boot (outcome : Option ThemesData) : Reachable (boot outcome)
  | next {w : World} (e : Event) : Reachable w → enabled w e = true → Reachable (step w e)

/-- Successive delivery of a list of answers. -/
def feed (w : World) (responses : List (Option StatusData)) : World :=
  responses.foldl deliver w

/-- Runs a list of events from `w`; `none` as soon as an event is not enabled
when its turn comes. -/
def runEvents (w : World) : List Event → Option World
  | [] => some w
  | e :: es => if enabled w e then runEvents (step w e) es else none

/-- Applies a list of events from `w`, enabled or not. -/
def runAll (w : World) (es : List Event) : World :=
  es.foldl step w

/-- The clicks that choose "space" and 60 s, used in the examples. -/
def selectEvents : List Event :=
  [Event.selectTheme "space", Event.selectDuration 60]

/-- A generation from the first click to the completed report, used in the
examples. -/
def completedEvents : List Event :=
  [Event.selectTheme "space", Event.selectDuration 60, Event.generate,
    Event.generateSettled (some { animation_id := some "a1" }),
    Event.statusResponse (some sampleCompleted)]

/-- A generation whose `POST /generate` is rejected, used in the examples. -/
def rejectedEvents : List Event :=
  [Event.selectTheme "space", Event.selectDuration 60, Event.generate,
    Event.generateSettled none]

/-- What the selection handlers compute: step and the two selections. -/
def selection (s : State) : Step × Option String × Option Int :=
  (s.currentStep, s.selectedTheme, s.selectedDuration)

/-- The invariant of the reachable worlds: past the first step a catalog theme
is selected, from "generate" on a listed duration is selected, and at most one
request or query is outstanding, and only in step "generating". -/
def Inv (w : World) : Prop :=
  (w.app.currentStep ≠ Step.theme →
    ∃ t, w.app.selectedTheme = some t ∧ t ∈ themeIds w.app.themes) ∧
  (w.app.currentStep = Step.generate ∨ w.app.currentStep = Step.generating ∨
      w.app.currentStep = Step.video →
    ∃ d, w.app.selectedDuration = some d ∧ d ∈ durations) ∧
  w.posting + w.pending.length ≤ 1 ∧
  (0 < w.posting + w.pending.length → w.app.currentStep = Step.generating)

end App

/-! ## `App_simple.jsx` -/

namespace AppSimple

/-- The `useState` cells of `App_simple.jsx` (lines 11 to 19); `durations` is
never set and is the constant `Workflow.durations`; of the health object only
its `status` is kept. -/
structure State where
  currentStep : Step
  selectedTheme : Option String
  selectedDuration : Option Int
  themes : List Theme
  generationResult : Option VideoResult
  animationId : AnimId
  error : Option String
  apiHealth : Option String
  deriving DecidableEq

/-- The initial values given to `useState`. -/
def initialState : State :=
  { currentStep := Step.theme
    selectedTheme := none
    selectedDuration := none
    themes := []
    generationResult := none
    animationId := none
    error := none
    apiHealth := none }

/-- Handler `loadThemes` (lines 26 to 34), given the outcome of
`animationService.getThemes()`. -/
def loadThemes (s : State) (outcome : Option ThemesData) : State :=
  match outcome with
  | some data => { s with themes := data.themes.getD [] }
  | none => { s with error := some "Impossible de charger les thèmes" }

/-- Handler `checkApiHealth` (lines 36 to 44), given the outcome of
`animationService.checkHealth()`. -/
def checkApiHealth (s : State) (outcome : Option String) : State :=
  match outcome with
  | some health => { s with apiHealth := some health }
  | none => { s with apiHealth := some "unhealthy" }

/-- Handler `handleThemeSelect` (lines 46 to 53). -/
def handleThemeSelect (s : State) (themeId : String) : State :=
  if truthyNum s.selectedDuration then
    { s with selectedTheme := some themeId, currentStep := Step.generate }
  else
    { s with selectedTheme := some themeId, currentStep := Step.duration }

/-- Handler `handleDurationSelect` (lines 55 to 60). -/
def handleDurationSelect (s : State) (duration : Int) : State :=
  if truthyStr s.selectedTheme then
    { s with selectedDuration := some duration, currentStep := Step.generate }
  else
    { s with selectedDuration := some duration }

/-- Handler `handleStartGeneration` up to its `await` (lines 64 and 65). -/
def handleStartGeneration_start (s : State) : State :=
  { s with currentStep := Step.generating, error := none }

/-- Handler `handleStartGeneration` after `animationService.generateAnimation` has
settled (lines 72 to 77). -/
def handleStartGeneration_settle (s : State) (outcome : Option GenerateData) : State :=
  match outcome with
  | some response => { s with animationId := response.animation_id }
  | none =>
    { s with
      error := some "Erreur lors du lancement de la génération"
      currentStep := Step.generate }

/-- Handler `handleStartGeneration` (lines 62 to 78) run from click to settlement. -/
def handleStartGeneration (s : State) (outcome : Option GenerateData) : State :=
  handleStartGeneration_settle (handleStartGeneration_start s) outcome

/-- Handler `handleGenerationComplete` (lines 80 to 83). -/
def handleGenerationComplete (s : State) (result : Option VideoResult) : State :=
  { s with generationResult := result, currentStep := Step.video }

/-- Handler `handleGenerationError` (lines 85 to 88). -/
def handleGenerationError (s : State) (errorMsg : String) : State :=
  { s with error := some errorMsg, currentStep := Step.generate }

/-- Handler `handleRestart` (lines 90 to 97). -/
def handleRestart (s : State) : State :=
  { s with
    currentStep := Step.theme
    selectedTheme := none
    selectedDuration := none
    generationResult := none
    animationId := none
    error := none }

/-- The close button of the error banner (line 120). -/
def dismissError (s : State) : State :=
  { s with error := none }

/-- The controller together with the number of `generateAnimation` calls that
have not settled yet.  `handleStartGeneration` awaits its request while the
step is already "generating", so other events can occur between the click and
the settlement. -/
structure World where
  app : State
  posting : Nat
  deriving DecidableEq

/-- What can happen to the controller: a click offered by the rendered view, a
callback of the mounted `GenerationProcess`, or the settlement of a request. -/
inductive Event where
  | selectTheme (themeId : String)
  | selectDuration (duration : Int)
  | startGeneration
  | generationSettled (outcome : Option GenerateData)
  | complete (result : Option VideoResult)
  | generationError (errorMsg : String)
  | restart
  | dismissError
  | healthSettled (outcome : Option String)

/-- When an event can occur, following the conditions of the JSX (lines 117,
124, 135, 146, 162, 174): `GenerationProcess` receives `onComplete` and
`onError` only while the step is "generating"; a settlement needs a request
that has not settled. -/
def enabled (w : World) : Event → Bool
  | Event.selectTheme themeId =>
      decide (w.app.currentStep = Step.theme) && decide (themeId ∈ themeIds w.app.themes)
  | Event.selectDuration duration =>
      decide (w.app.currentStep = Step.duration) && decide (duration ∈ durations)
  | Event.startGeneration => decide (w.app.currentStep = Step.generate)
  | Event.generationSettled _ => decide (0 < w.posting)
  | Event.complete _ => decide (w.app.currentStep = Step.generating)
  | Event.generationError _ => decide (w.app.currentStep = Step.generating)
  | Event.restart =>
      decide (w.app.currentStep = Step.video) && w.app.generationResult.isSome
  | Event.dismissError => truthyStr w.app.error
  | Event.healthSettled _ => true

/-- The effect of an event on the world. -/
def step (w : World) : Event → World
  | Event.selectTheme themeId => { w with app := handleThemeSelect w.app themeId }
  | Event.selectDuration duration => { w with app := handleDurationSelect w.app duration }
  | Event.startGeneration =>
      { app := handleStartGeneration_start w.app, posting := w.posting + 1 }
  | Event.generationSettled outcome =>
      { app := handleStartGeneration_settle w.app outcome, posting := w.posting - 1 }
  | Event.complete result => { w with app := handleGenerationComplete w.app result }
  | Event.generationError errorMsg => { w with app := handleGenerationError w.app errorMsg }
  | Event.restart => { w with app := handleRestart w.app }
  | Event.dismissError => { w with app := dismissError w.app }
  | Event.healthSettled outcome => { w with app := checkApiHealth w.app outcome }

/-- The state once the mount effect `loadThemes()` has settled. -/
def boot (outcome : Option ThemesData) : State :=
  loadThemes initialState outcome

/-- The world once the mount effect `loadThemes()` has settled. -/
def bootWorld (outcome : Option ThemesData) : World :=
  { app := boot outcome, posting := 0 }

/-- The worlds reachable through the rendered views. -/
inductive Reachable : World → Prop where
  | boot (outcome : Option ThemesData) : Reachable (bootWorld outcome)
  | next {w : World} (e : Event) : Reachable w → enabled w e = true → Reachable (step w e)

/-- Runs a list of events from `w`; `none` as soon as an event is not enabled
when its turn comes. -/
def runEvents (w : World) : List Event → Option World
  | [] => some w
  | e :: es => if enabled w e then runEvents (step w e) es else none

/-- Applies a list of events from `w`, enabled or not. -/
def runAll (w : World) (es : List Event) : World :=
  es.foldl step w

/-- The clicks that choose "space" and 60 s, used in the examples. -/
def selectEvents : List Event :=
  [Event.selectTheme "space", Event.selectDuration 60]

/-- A run in which `GenerationProcess` reports completion and the user restarts
before the request of `handleStartGeneration` is rejected, used in the
examples. -/
def raceEvents : List Event :=
  [Event.selectTheme "space", Event.selectDuration 60, Event.startGeneration,
    Event.complete (some { final_video_url := "https://x/y.mp4" }), Event.restart,
    Event.generationSettled none]

/-- What the selection handlers compute: step and the two selections. -/
def selection (s : State) : Step × Option String × Option Int :=
  (s.currentStep, s.selectedTheme, s.selectedDuration)

/-- The invariant of the reachable worlds: a selected theme is an id of the
catalog and a selected duration is a listed one. -/
def Inv (w : World) : Prop :=
  (∀ t, w.app.selectedTheme = some t → t ∈ themeIds w.app.themes) ∧
  (∀ d, w.app.selectedDuration = some d → d ∈ durations)

end AppSimple

/-! ## Theorems -/

/-- C1, as stated, fails: the catalog may serve the empty string as an id, and
with that id chosen first `handleDurationSelect` of `App_simple.jsx` finds
`selectedTheme` falsy and leaves the step at "duration". -/
theorem simple_empty_theme_id_stalls_at_duration :
    "" ∈ themeIds (AppSimple.boot (some ⟨some [⟨"", "Espace", "Voyage", "*"⟩]⟩)).themes ∧
    (30 : Int) ∈ durations ∧
    (AppSimple.boot (some ⟨some [⟨"", "Espace", "Voyage", "*"⟩]⟩)).currentStep = Step.theme ∧
    (AppSimple.boot (some ⟨some [⟨"", "Espace", "Voyage", "*"⟩]⟩)).selectedTheme = none ∧
    (AppSimple.boot (some ⟨some [⟨"", "Espace", "Voyage", "*"⟩]⟩)).selectedDuration = none ∧
    (AppSimple.handleDurationSelect
      (AppSimple.handleThemeSelect
        (AppSimple.boot (some ⟨some [⟨"", "Espace", "Voyage", "*"⟩]⟩)) "") 30).currentStep
      ≠ Step.generate := by
  decide

/-- C1, amended: in `App_simple.jsx`, from a state at step "theme" with both
selections empty, for every valid theme id `t` and every listed duration `d`,
choosing the duration and then the theme ends at "generate" with both stored,
and so does choosing the theme and then the duration when `t` is not the empty
string. -/
theorem simple_select_both_orders_reach_generate (s : AppSimple.State) (t : String) (d : Int)
    (_hstep : s.currentStep = Step.theme) (hth : s.selectedTheme = none)
    (hdu : s.selectedDuration = none) (_ht : t ∈ themeIds s.themes) (hd : d ∈ durations) :
    (t ≠ "" →
      (AppSimple.handleDurationSelect (AppSimple.handleThemeSelect s t) d).currentStep
          = Step.generate ∧
      (AppSimple.handleDurationSelect (AppSimple.handleThemeSelect s t) d).selectedTheme
          = some t ∧
      (AppSimple.handleDurationSelect (AppSimple.handleThemeSelect s t) d).selectedDuration
          = some d) ∧
    ((AppSimple.handleThemeSelect (AppSimple.handleDurationSelect s d) t).currentStep
          = Step.generate ∧
      (AppSimple.handleThemeSelect (AppSimple.handleDurationSelect s d) t).selectedTheme
          = some t ∧
      (AppSimple.handleThemeSelect (AppSimple.handleDurationSelect s d) t).selectedDuration
          = some d) := by
  have hd0 : d ≠ 0 := by
    intro h
    subst h
    simp [durations] at hd
  constructor
  · intro hne
    simp [AppSimple.handleThemeSelect, AppSimple.handleDurationSelect, truthyNum, truthyStr,
      hdu, hne]
  · simp [AppSimple.handleThemeSelect, AppSimple.handleDurationSelect, truthyNum, truthyStr,
      hth, hd0]

/-- Witness of the amended C1 at the catalog `[space]`, theme "space" and 60 s. -/
theorem simple_select_both_orders_reach_generate_witness :
    ("space" ≠ "" →
      (AppSimple.handleDurationSelect (AppSimple.handleThemeSelect
        (AppSimple.boot (some sampleCatalog)) "space")
          60).currentStep = Step.generate ∧
      (AppSimple.handleDurationSelect (AppSimple.handleThemeSelect
        (AppSimple.boot (some sampleCatalog)) "space")
          60).selectedTheme = some "space" ∧
      (AppSimple.handleDurationSelect (AppSimple.handleThemeSelect
        (AppSimple.boot (some sampleCatalog)) "space")
          60).selectedDuration = some 60) ∧
    ((AppSimple.handleThemeSelect (AppSimple.handleDurationSelect
        (AppSimple.boot (some sampleCatalog)) 60)
          "space").currentStep = Step.generate ∧
      (AppSimple.handleThemeSelect (AppSimple.handleDurationSelect
        (AppSimple.boot (some sampleCatalog)) 60)
          "space").selectedTheme = some "space" ∧
      (AppSimple.handleThemeSelect (AppSimple.handleDurationSelect
        (AppSimple.boot (some sampleCatalog)) 60)
          "space").selectedDuration = some 60) :=
  simple_select_both_orders_reach_generate
    (AppSimple.boot (some sampleCatalog)) "space" 60
    (by decide) (by decide) (by decide) (by decide) (by decide)

/-- C2: `restart` of `App.jsx` and `handleRestart` of `App_simple.jsx`, applied
to any state, give step "theme" with the theme, the duration, the animation id
and the result all empty. -/
theorem restart_yields_theme_with_everything_empty (a : App.State) (b : AppSimple.State) :
    ((App.restart a).currentStep = Step.theme ∧
      (App.restart a).selectedTheme = none ∧
      (App.restart a).selectedDuration = none ∧
      (App.restart a).animationId = none ∧
      (App.restart a).result = none) ∧
    ((AppSimple.handleRestart b).currentStep = Step.theme ∧
      (AppSimple.handleRestart b).selectedTheme = none ∧
      (AppSimple.handleRestart b).selectedDuration = none ∧
      (AppSimple.handleRestart b).animationId = none ∧
      (AppSimple.handleRestart b).generationResult = none) := by
  simp [App.restart, AppSimple.handleRestart]

/-- C4: in `App_simple.jsx`, `handleGenerationError e` in step "generating" with
no result stored goes back to "generate" with the error message `e`, keeps the
result empty and keeps both selections. -/
theorem simple_generation_error_returns_to_generate (s : AppSimple.State) (e : String)
    (_hstep : s.currentStep = Step.generating) (hres : s.generationResult = none) :
    (AppSimple.handleGenerationError s e).currentStep = Step.generate ∧
    (AppSimple.handleGenerationError s e).error = some e ∧
    (AppSimple.handleGenerationError s e).generationResult = none ∧
    (AppSimple.handleGenerationError s e).selectedTheme = s.selectedTheme ∧
    (AppSimple.handleGenerationError s e).selectedDuration = s.selectedDuration := by
  simp [AppSimple.handleGenerationError, hres]

/-- Witness of C4: the poller reports "render failed" right after the user has
chosen "space" and 60 s and started the generation. -/
theorem simple_generation_error_returns_to_generate_witness :
    (AppSimple.handleGenerationError
      (AppSimple.handleStartGeneration
        (AppSimple.handleDurationSelect
          (AppSimple.handleThemeSelect AppSimple.initialState "space") 60)
        (some ⟨some "a1"⟩)) "render failed").currentStep = Step.generate ∧
    (AppSimple.handleGenerationError
      (AppSimple.handleStartGeneration
        (AppSimple.handleDurationSelect
          (AppSimple.handleThemeSelect AppSimple.initialState "space") 60)
        (some ⟨some "a1"⟩)) "render failed").error = some "render failed" ∧
    (AppSimple.handleGenerationError
      (AppSimple.handleStartGeneration
        (AppSimple.handleDurationSelect
          (AppSimple.handleThemeSelect AppSimple.initialState "space") 60)
        (some ⟨some "a1"⟩)) "render failed").generationResult = none ∧
    (AppSimple.handleGenerationError
      (AppSimple.handleStartGeneration
        (AppSimple.handleDurationSelect
          (AppSimple.handleThemeSelect AppSimple.initialState "space") 60)
        (some ⟨some "a1"⟩)) "render failed").selectedTheme = some "space" ∧
    (AppSimple.handleGenerationError
      (AppSimple.handleStartGeneration
        (AppSimple.handleDurationSelect
          (AppSimple.handleThemeSelect AppSimple.initialState "space") 60)
        (some ⟨some "a1"⟩)) "render failed").selectedDuration = some 60 :=
  simple_generation_error_returns_to_generate
    (AppSimple.handleStartGeneration
      (AppSimple.handleDurationSelect
        (AppSimple.handleThemeSelect AppSimple.initialState "space") 60)
      (some ⟨some "a1"⟩)) "render failed" (by decide) (by decide)

/-- C6, as stated, fails: 45 is not a listed duration, yet `handleDurationSelect`
stores it and moves on to "generate", in `App.jsx` and in `App_simple.jsx`. -/
theorem unlisted_duration_is_stored :
    (45 : Int) ∉ durations ∧
    (App.handleDurationSelect (App.handleThemeSelect App.initialState "space") 45)
      ≠ App.handleThemeSelect App.initialState "space" ∧
    (App.handleDurationSelect (App.handleThemeSelect App.initialState "space")
      45).selectedDuration = some 45 ∧
    (App.handleDurationSelect (App.handleThemeSelect App.initialState "space")
      45).currentStep = Step.generate ∧
    (AppSimple.handleDurationSelect (AppSimple.handleThemeSelect AppSimple.initialState "space")
      45).selectedDuration = some 45 ∧
    (AppSimple.handleDurationSelect (AppSimple.handleThemeSelect AppSimple.initialState "space")
      45).currentStep = Step.generate := by
  decide

/-- C6, amended: the selection handlers do not validate.  For every duration
`d` and every theme id `t`, listed or not, `handleDurationSelect d` stores `d`
and `handleThemeSelect t` stores `t`, and the step moves exactly as for a listed
value: in `App.jsx` to "generate" and to "duration"; in `App_simple.jsx` to
"generate" if the other selection is truthy, and otherwise the step is kept
(duration) or set to "duration" (theme). -/
theorem selection_handlers_store_any_value (a : App.State) (b : AppSimple.State)
    (d : Int) (t : String) :
    ((App.handleDurationSelect a d).selectedDuration = some d ∧
      (App.handleDurationSelect a d).currentStep = Step.generate ∧
      (App.handleThemeSelect a t).selectedTheme = some t ∧
      (App.handleThemeSelect a t).currentStep = Step.duration) ∧
    ((AppSimple.handleDurationSelect b d).selectedDuration = some d ∧
      (AppSimple.handleDurationSelect b d).currentStep
        = (if truthyStr b.selectedTheme then Step.generate else b.currentStep) ∧
      (AppSimple.handleThemeSelect b t).selectedTheme = some t ∧
      (AppSimple.handleThemeSelect b t).currentStep
        = (if truthyNum b.selectedDuration then Step.generate else Step.duration)) := by
  refine ⟨by simp [App.handleDurationSelect, App.handleThemeSelect], ?_⟩
  unfold AppSimple.handleDurationSelect AppSimple.handleThemeSelect
  cases truthyStr b.selectedTheme <;> cases truthyNum b.selectedDuration <;> simp

/-- C9, the failing input: a generation whose last report carried the label
"Montage final" has completed and the user clicks the restart button; `restart`
leaves `currentStepText` at that label, which is not the initial value, the
empty string, while `progress` is back at 0. -/
theorem app_restart_keeps_currentStepText :
    ∃ w, App.runEvents (App.boot (some sampleCatalog))
        [App.Event.selectTheme "space", App.Event.selectDuration 60, App.Event.generate,
          App.Event.generateSettled (some ⟨some "a1"⟩),
          App.Event.statusResponse (some sampleCompleted)] = some w ∧
      App.enabled w App.Event.restart = true ∧
      (App.restart w.app).progress = 0 ∧
      (App.restart w.app).currentStepText = "Montage final" ∧
      (App.restart w.app).currentStepText ≠ App.initialState.currentStepText :=
  ⟨_, rfl, by decide⟩

/-- C10: from states of `App.jsx` and `App_simple.jsx` with the same step and
selections, the two `handleThemeSelect` give the same step and selections
exactly when the current duration is `null` or 0, and the two
`handleDurationSelect` exactly when the current theme is neither `null` nor the
empty string or the step is already "generate"; from the initial states, for a
non-empty theme id, both variants walk "theme", "duration", "generate" with the
same selections. -/
theorem selection_handlers_agree_iff (a : App.State) (b : AppSimple.State) (t : String)
    (d : Int) (h : App.selection a = AppSimple.selection b) :
    (App.selection (App.handleThemeSelect a t)
        = AppSimple.selection (AppSimple.handleThemeSelect b t)
      ↔ (b.selectedDuration = none ∨ b.selectedDuration = some 0)) ∧
    (App.selection (App.handleDurationSelect a d)
        = AppSimple.selection (AppSimple.handleDurationSelect b d)
      ↔ ((b.selectedTheme ≠ none ∧ b.selectedTheme ≠ some "") ∨
          b.currentStep = Step.generate)) ∧
    (t ≠ "" →
      App.selection (App.handleThemeSelect App.initialState t)
        = (Step.duration, some t, none) ∧
      AppSimple.selection (AppSimple.handleThemeSelect AppSimple.initialState t)
        = (Step.duration, some t, none) ∧
      App.selection (App.handleDurationSelect (App.handleThemeSelect App.initialState t) d)
        = (Step.generate, some t, some d) ∧
      AppSimple.selection
          (AppSimple.handleDurationSelect
            (AppSimple.handleThemeSelect AppSimple.initialState t) d)
        = (Step.generate, some t, some d)) := by
  simp only [App.selection, AppSimple.selection, Prod.mk.injEq] at h
  obtain ⟨hs, ht, hd⟩ := h
  refine ⟨?_, ?_, ?_⟩
  · rcases hdu : b.selectedDuration with _ | n
    · simp [App.selection, AppSimple.selection, App.handleThemeSelect,
        AppSimple.handleThemeSelect, truthyNum, hdu, hd]
    · by_cases hn : n = 0
      · simp [App.selection, AppSimple.selection, App.handleThemeSelect,
          AppSimple.handleThemeSelect, truthyNum, hdu, hd, hn]
      · simp [App.selection, AppSimple.selection, App.handleThemeSelect,
          AppSimple.handleThemeSelect, truthyNum, hdu, hd, hn]
  · rcases hth : b.selectedTheme with _ | v
    · simp [App.selection, AppSimple.selection, App.handleDurationSelect,
        AppSimple.handleDurationSelect, truthyStr, hth, ht]
      exact eq_comm
    · by_cases hv : v = ""
      · simp [App.selection, AppSimple.selection, App.handleDurationSelect,
          AppSimple.handleDurationSelect, truthyStr, hth, ht, hv]
        exact eq_comm
      · simp [App.selection, AppSimple.selection, App.handleDurationSelect,
          AppSimple.handleDurationSelect, truthyStr, hth, ht, hv]
  · intro hne
    simp [App.selection, AppSimple.selection, App.handleThemeSelect,
      AppSimple.handleThemeSelect, App.handleDurationSelect, AppSimple.handleDurationSelect,
      truthyStr, truthyNum, App.initialState, AppSimple.initialState, hne]

/-- Witness of C10 at the two initial states, theme "space" and 60 s. -/
theorem selection_handlers_agree_iff_witness :
    App.selection App.initialState = AppSimple.selection AppSimple.initialState ∧
    (App.selection (App.handleThemeSelect App.initialState "space")
        = AppSimple.selection (AppSimple.handleThemeSelect AppSimple.initialState "space")
      ↔ (AppSimple.initialState.selectedDuration = none ∨
          AppSimple.initialState.selectedDuration = some 0)) :=
  ⟨by decide,
    (selection_handlers_agree_iff App.initialState AppSimple.initialState "space" 60
      (by decide)).1⟩

/-! ### Polling -/

/-- The expression `p || 0` is `p` for every number `p`. -/
theorem orZero_some (p : Int) : orZero (some p) = p := by
  unfold orZero truthyNum
  by_cases h : p = 0 <;> simp [h]

/-- A report that is neither completed nor an error updates the progress display
and schedules the next query for the same id. -/
theorem deliver_pending_report (w : App.World) (id : AnimId) (r : StatusData)
    (hq : w.pending = [id]) (hr : r.status = "pending") :
    (App.deliver w (some r)).pending = [id] ∧
    (App.deliver w (some r)).app.currentStep = w.app.currentStep ∧
    (App.deliver w (some r)).app.progress = orZero r.progress := by
  simp [App.deliver, App.checkProgress, hq, hr]

/-- A run of pending reports keeps the step and keeps one query scheduled. -/
theorem feed_pending_reports (id : AnimId) (rs : List StatusData) :
    ∀ w : App.World, w.pending = [id] → (∀ r ∈ rs, r.status = "pending") →
      (App.feed w (rs.map some)).pending = [id] ∧
      (App.feed w (rs.map some)).app.currentStep = w.app.currentStep := by
  induction rs with
  | nil => intro w hq _; exact ⟨hq, rfl⟩
  | cons r rs ih =>
    intro w hq hall
    have hr : r.status = "pending" := hall r (List.mem_cons_self r rs)
    obtain ⟨h1, h2, _⟩ := deliver_pending_report w id r hq hr
    have h := ih (App.deliver w (some r)) h1 (fun x hx => hall x (List.mem_cons_of_mem r hx))
    simp only [App.feed, List.map_cons, List.foldl_cons] at h ⊢
    exact ⟨h.1, h.2.trans h2⟩

/-- Feeding one more answer is delivering it after the others. -/
theorem feed_snoc (w : App.World) (rs : List (Option StatusData)) (r : Option StatusData) :
    App.feed w (rs ++ [r]) = App.deliver (App.feed w rs) r := by
  simp [App.feed, List.foldl_append]

/-- C3: in `App.jsx`, let a status query for `id` be outstanding in step
"generating", and let it be answered by the reports `rs`, all of status
"pending", followed by a report `fin` of status "completed".  After the `i`-th
pending report the step is still "generating", `progress` is the percent of
that report and exactly one query is scheduled; after `fin` the step is "video",
`result` is the result of `fin` and no query is scheduled. -/
theorem poll_pending_then_completed (s : App.State) (n : Nat) (id : AnimId)
    (rs : List StatusData) (fin : StatusData)
    (hstep : s.currentStep = Step.generating)
    (hrs : ∀ r ∈ rs, r.status = "pending")
    (hfin : fin.status = "completed") :
    (∀ (i : Nat) (hi : i < rs.length),
      (App.feed ⟨s, n, [id]⟩ ((rs.take (i + 1)).map some)).app.currentStep
        = Step.generating ∧
      (∀ p : Int, (rs.get ⟨i, hi⟩).progress = some p →
        (App.feed ⟨s, n, [id]⟩ ((rs.take (i + 1)).map some)).app.progress = p) ∧
      (App.feed ⟨s, n, [id]⟩ ((rs.take (i + 1)).map some)).pending = [id]) ∧
    ((App.feed ⟨s, n, [id]⟩ (rs.map some ++ [some fin])).app.currentStep = Step.video ∧
      (App.feed ⟨s, n, [id]⟩ (rs.map some ++ [some fin])).app.result = fin.result ∧
      (App.feed ⟨s, n, [id]⟩ (rs.map some ++ [some fin])).pending = []) := by
  constructor
  · intro i hi
    have htake : rs.take (i + 1) = rs.take i ++ [rs.get ⟨i, hi⟩] := by
      rw [List.take_succ, List.getElem?_eq_getElem hi]
      rfl
    have hsub : ∀ r ∈ rs.take i, r.status = "pending" :=
      fun r hr => hrs r (List.mem_of_mem_take hr)
    obtain ⟨hq, hst⟩ := feed_pending_reports id (rs.take i) ⟨s, n, [id]⟩ rfl hsub
    have hget : (rs.get ⟨i, hi⟩).status = "pending" := hrs _ (List.get_mem rs i hi)
    obtain ⟨d1, d2, d3⟩ :=
      deliver_pending_report (App.feed ⟨s, n, [id]⟩ ((rs.take i).map some)) id
        (rs.get ⟨i, hi⟩) hq hget
    rw [htake, List.map_append, List.map_singleton, feed_snoc]
    refine ⟨?_, ?_, d1⟩
    · rw [d2, hst]; exact hstep
    · intro p hp
      rw [d3, hp, orZero_some]
  · obtain ⟨hq, _⟩ := feed_pending_reports id rs ⟨s, n, [id]⟩ rfl hrs
    rw [feed_snoc]
    simp [App.deliver, App.checkProgress, hq, hfin]

/-- Witness of C3 on the reports 10 %, 55 %, completed with
"https://x/y.mp4". -/
theorem poll_pending_then_completed_witness :
    (App.feed ⟨App.handleGenerate_start App.initialState, 0, [some "a1"]⟩
      ([samplePending 10 "Script", samplePending 55 "Rendu"].map some
        ++ [some sampleCompleted])).app.currentStep = Step.video ∧
    (App.feed ⟨App.handleGenerate_start App.initialState, 0, [some "a1"]⟩
      ([samplePending 10 "Script", samplePending 55 "Rendu"].map some
        ++ [some sampleCompleted])).app.result = some ⟨"https://x/y.mp4"⟩ ∧
    (App.feed ⟨App.handleGenerate_start App.initialState, 0, [some "a1"]⟩
      ([samplePending 10 "Script", samplePending 55 "Rendu"].map some
        ++ [some sampleCompleted])).pending = [] :=
  (poll_pending_then_completed (App.handleGenerate_start App.initialState) 0 (some "a1")
    [samplePending 10 "Script", samplePending 55 "Rendu"] sampleCompleted
    (by decide) (by decide) (by decide)).2

/-! ### Reachable states -/

/-- Every reachable world of `App.jsx` satisfies the invariant. -/
theorem app_reachable_inv (w : App.World) (h : App.Reachable w) : App.Inv w := by
  induction h with
  | boot outcome =>
    cases outcome <;> simp [App.Inv, App.boot, App.loadThemes, App.initialState]
  | @next w e _ hen ih =>
    obtain ⟨i1, i2, i3, i4⟩ := ih
    cases e with
    | selectTheme themeId =>
      simp only [App.enabled, Bool.and_eq_true, decide_eq_true_eq] at hen
      refine ⟨?_, ?_, i3, ?_⟩
      · intro _; exact ⟨themeId, rfl, hen.2⟩
      · simp [App.step, App.handleThemeSelect]
      · intro hpos
        have := i4 hpos
        simp [hen.1] at this
    | selectDuration duration =>
      simp only [App.enabled, Bool.and_eq_true, decide_eq_true_eq] at hen
      refine ⟨?_, ?_, i3, ?_⟩
      · intro _
        exact i1 (by simp [hen.1])
      · intro _; exact ⟨duration, rfl, hen.2⟩
      · intro hpos
        have := i4 hpos
        simp [hen.1] at this
    | generate =>
      simp only [App.enabled, decide_eq_true_eq] at hen
      have hzero : w.posting + w.pending.length = 0 := by
        by_contra hne
        have := i4 (Nat.pos_of_ne_zero hne)
        simp [hen] at this
      refine ⟨?_, ?_, ?_, ?_⟩
      · intro _
        exact i1 (by simp [hen])
      · intro _
        exact i2 (Or.inl hen)
      · simp only [App.step]; omega
      · intro _; rfl
    | generateSettled outcome =>
      simp only [App.enabled, decide_eq_true_eq] at hen
      have hgen := i4 (by omega)
      cases outcome with
      | none =>
        refine ⟨i1, i2, ?_, ?_⟩
        · simp only [App.step, App.handleGenerate_settle, List.append_nil]; omega
        · intro _; exact hgen
      | some data =>
        refine ⟨i1, i2, ?_, ?_⟩
        · simp only [App.step, App.handleGenerate_settle, List.length_append,
            List.length_singleton]
          omega
        · intro _; exact hgen
    | statusResponse response =>
      simp only [App.enabled, decide_eq_true_eq] at hen
      obtain ⟨id, rest, hq⟩ := List.exists_cons_of_ne_nil hen
      have hlen : rest = [] := by
        rw [hq] at i3
        simp only [List.length_cons] at i3
        exact List.eq_nil_of_length_eq_zero (by omega)
      subst hlen
      have hgen : w.app.currentStep = Step.generating := i4 (by rw [hq]; simp)
      have hpost : w.posting = 0 := by
        rw [hq] at i3
        simp only [List.length_cons, List.length_nil] at i3
        omega
      cases response with
      | none =>
        simp only [App.step, App.deliver, hq, App.checkProgress]
        refine ⟨i1, i2, ?_, ?_⟩
        · simp [hpost]
        · simp [hpost]
      | some data =>
        by_cases hc : data.status = "completed"
        · simp only [App.step, App.deliver, hq, App.checkProgress, hc, if_true]
          refine ⟨fun _ => i1 (by simp [hgen]), fun _ => i2 (by simp [hgen]), ?_, ?_⟩
          · simp [hpost]
          · simp [hpost]
        · by_cases he : data.status = "error"
          · simp only [App.step, App.deliver, hq, App.checkProgress, hc, he, if_true, if_false]
            refine ⟨fun _ => i1 (by simp [hgen]), fun _ => i2 (by simp [hgen]), ?_, ?_⟩
            · simp [hpost]
            · simp [hpost]
          · simp only [App.step, App.deliver, hq, App.checkProgress, hc, he, if_false]
            refine ⟨fun _ => i1 (by simp [hgen]), fun _ => i2 (by simp [hgen]), ?_, ?_⟩
            · simp [hpost]
            · intro _; exact hgen
    | restart =>
      simp only [App.enabled, Bool.and_eq_true, decide_eq_true_eq] at hen
      refine ⟨?_, ?_, i3, ?_⟩
      · simp [App.step, App.restart]
      · simp [App.step, App.restart]
      · intro hpos
        have := i4 hpos
        simp [hen.1] at this

/-- A run all of whose events are enabled in turn ends in a reachable world. -/
theorem app_reachable_runAll (es : List App.Event) :
    ∀ w : App.World, App.Reachable w → (App.runEvents w es).isSome = true →
      App.Reachable (App.runAll w es) := by
  induction es with
  | nil => intro w hw _; exact hw
  | cons e es ih =>
    intro w hw hrun
    by_cases hen : App.enabled w e = true
    · simp only [App.runEvents, hen, if_true] at hrun
      exact ih (App.step w e) (App.Reachable.next e hw hen) hrun
    · simp [App.runEvents, hen] at hrun

/-- Every reachable world of `App_simple.jsx` satisfies the invariant. -/
theorem simple_reachable_inv (w : AppSimple.World) (h : AppSimple.Reachable w) :
    AppSimple.Inv w := by
  induction h with
  | boot outcome =>
    cases outcome <;>
      simp [AppSimple.Inv, AppSimple.bootWorld, AppSimple.boot, AppSimple.loadThemes,
        AppSimple.initialState]
  | @next w e _ hen ih =>
    obtain ⟨i1, i2⟩ := ih
    cases e with
    | selectTheme themeId =>
      simp only [AppSimple.enabled, Bool.and_eq_true, decide_eq_true_eq] at hen
      simp only [AppSimple.Inv, AppSimple.step, AppSimple.handleThemeSelect]
      cases truthyNum w.app.selectedDuration
      · refine ⟨?_, i2⟩
        intro t ht
        simp at ht
        exact ht ▸ hen.2
      · refine ⟨?_, i2⟩
        intro t ht
        simp at ht
        exact ht ▸ hen.2
    | selectDuration duration =>
      simp only [AppSimple.enabled, Bool.and_eq_true, decide_eq_true_eq] at hen
      simp only [AppSimple.Inv, AppSimple.step, AppSimple.handleDurationSelect]
      cases truthyStr w.app.selectedTheme
      · refine ⟨i1, ?_⟩
        intro d hd
        simp at hd
        exact hd ▸ hen.2
      · refine ⟨i1, ?_⟩
        intro d hd
        simp at hd
        exact hd ▸ hen.2
    | startGeneration => exact ⟨i1, i2⟩
    | generationSettled outcome => cases outcome <;> exact ⟨i1, i2⟩
    | complete result => exact ⟨i1, i2⟩
    | generationError errorMsg => exact ⟨i1, i2⟩
    | restart => simp [AppSimple.Inv, AppSimple.step, AppSimple.handleRestart]
    | dismissError => exact ⟨i1, i2⟩
    | healthSettled outcome => cases outcome <;> exact ⟨i1, i2⟩

/-- A run all of whose events are enabled in turn ends in a reachable world. -/
theorem simple_reachable_runAll (es : List AppSimple.Event) :
    ∀ w : AppSimple.World, AppSimple.Reachable w → (AppSimple.runEvents w es).isSome = true →
      AppSimple.Reachable (AppSimple.runAll w es) := by
  induction es with
  | nil => intro w hw _; exact hw
  | cons e es ih =>
    intro w hw hrun
    by_cases hen : AppSimple.enabled w e = true
    · simp only [AppSimple.runEvents, hen, if_true] at hrun
      exact ih (AppSimple.step w e) (AppSimple.Reachable.next e hw hen) hrun
    · simp [AppSimple.runEvents, hen] at hrun

/-- C5, the failing input: in `App.jsx` the user picks "space" and 60 s and
clicks generate, and the `POST /generate` is rejected.  The `catch` branch only
logs: the step stays "generating" instead of going back to "generate", nothing
is outstanding, and no event is enabled any more, so the user can neither retry
nor restart.  On the same input `handleStartGeneration` of `App_simple.jsx` does
go back to "generate". -/
theorem app_failed_generate_stays_generating :
    App.runEvents (App.boot (some sampleCatalog)) App.rejectedEvents
      = some (App.runAll (App.boot (some sampleCatalog)) App.rejectedEvents) ∧
    (App.runAll (App.boot (some sampleCatalog)) App.rejectedEvents).app.currentStep
      = Step.generating ∧
    (App.runAll (App.boot (some sampleCatalog)) App.rejectedEvents).app.currentStep
      ≠ Step.generate ∧
    (App.runAll (App.boot (some sampleCatalog)) App.rejectedEvents).posting = 0 ∧
    (App.runAll (App.boot (some sampleCatalog)) App.rejectedEvents).pending = [] ∧
    (∀ e, App.enabled (App.runAll (App.boot (some sampleCatalog)) App.rejectedEvents) e
      = false) ∧
    (AppSimple.handleStartGeneration
      (AppSimple.handleDurationSelect
        (AppSimple.handleThemeSelect (AppSimple.boot (some sampleCatalog)) "space") 60)
      none).currentStep = Step.generate := by
  refine ⟨by decide, by decide, by decide, by decide, by decide, ?_, by decide⟩
  intro e
  cases e <;> rfl

/-! ### Restart and the poll -/

/-- C7: in `App.jsx`, whenever `restart` can run, that is, in a reachable world
at step "video" with a result, the poll started by `handleGenerate` has no query
in flight or scheduled and no request is outstanding.  So once `restart` has
run, whatever status responses are delivered afterwards leave the controller
exactly as `restart` left it, with step "theme", progress 0 and no result, and
no query is issued. -/
theorem app_restart_leaves_no_poll (w : App.World) (responses : List (Option StatusData))
    (hr : App.Reachable w) (hen : App.enabled w App.Event.restart = true) :
    (App.step w App.Event.restart).pending = [] ∧
    (App.step w App.Event.restart).posting = 0 ∧
    App.feed (App.step w App.Event.restart) responses = App.step w App.Event.restart ∧
    (App.feed (App.step w App.Event.restart) responses).app = App.restart w.app ∧
    (App.feed (App.step w App.Event.restart) responses).app.currentStep = Step.theme ∧
    (App.feed (App.step w App.Event.restart) responses).app.progress = 0 ∧
    (App.feed (App.step w App.Event.restart) responses).app.result = none ∧
    (App.feed (App.step w App.Event.restart) responses).pending = [] := by
  obtain ⟨_, _, i3, i4⟩ := app_reachable_inv w hr
  simp only [App.enabled, Bool.and_eq_true, decide_eq_true_eq] at hen
  have hzero : w.posting + w.pending.length = 0 := by
    by_contra hne
    have := i4 (Nat.pos_of_ne_zero hne)
    simp [hen.1] at this
  have hq : w.pending = [] := List.eq_nil_of_length_eq_zero (by omega)
  have hp : w.posting = 0 := by omega
  have hfeed : ∀ (rs : List (Option StatusData)) (v : App.World), v.pending = [] →
      App.feed v rs = v := by
    intro rs
    induction rs with
    | nil => intro v _; rfl
    | cons r rs ih =>
      intro v hv
      have hd : App.deliver v r = v := by simp [App.deliver, hv]
      simp only [App.feed, List.foldl_cons, hd]
      exact ih v hv
  have hq2 : (App.step w App.Event.restart).pending = [] := by simp [App.step, hq]
  rw [hfeed responses _ hq2]
  exact ⟨hq2, by simp [App.step, hp], rfl, rfl, rfl, rfl, rfl, hq2⟩

/-- Witness of C7: a generation has completed, the user restarts, and two more
status responses are delivered. -/
theorem app_restart_leaves_no_poll_witness :
    App.feed
        (App.step (App.runAll (App.boot (some sampleCatalog)) App.completedEvents)
          App.Event.restart)
        [some sampleCompleted, some (samplePending 55 "Rendu")]
      = App.step (App.runAll (App.boot (some sampleCatalog)) App.completedEvents)
          App.Event.restart ∧
    (App.feed
        (App.step (App.runAll (App.boot (some sampleCatalog)) App.completedEvents)
          App.Event.restart)
        [some sampleCompleted, some (samplePending 55 "Rendu")]).app.currentStep
      = Step.theme :=
  ⟨(app_restart_leaves_no_poll
      (App.runAll (App.boot (some sampleCatalog)) App.completedEvents)
      [some sampleCompleted, some (samplePending 55 "Rendu")]
      (app_reachable_runAll App.completedEvents _ (App.Reachable.boot _) (by decide))
      (by decide)).2.2.1,
    (app_restart_leaves_no_poll
      (App.runAll (App.boot (some sampleCatalog)) App.completedEvents)
      [some sampleCompleted, some (samplePending 55 "Rendu")]
      (app_reachable_runAll App.completedEvents _ (App.Reachable.boot _) (by decide))
      (by decide)).2.2.2.2.1⟩

/-! ### Selections at the generate step -/

/-- C8, as stated, fails for `App_simple.jsx`: the user picks "space" and 60 s
and clicks generate; while the request is outstanding `GenerationProcess`
reports completion and the user restarts; then the request is rejected, and the
`catch` branch of `handleStartGeneration` sets step "generate" with both
selections empty and the generate button enabled. -/
theorem simple_generate_step_with_empty_selection :
    AppSimple.runEvents (AppSimple.bootWorld (some sampleCatalog)) AppSimple.raceEvents
      = some (AppSimple.runAll (AppSimple.bootWorld (some sampleCatalog))
          AppSimple.raceEvents) ∧
    AppSimple.Reachable
      (AppSimple.runAll (AppSimple.bootWorld (some sampleCatalog)) AppSimple.raceEvents) ∧
    (AppSimple.runAll (AppSimple.bootWorld (some sampleCatalog))
      AppSimple.raceEvents).app.currentStep = Step.generate ∧
    (AppSimple.runAll (AppSimple.bootWorld (some sampleCatalog))
      AppSimple.raceEvents).app.selectedTheme = none ∧
    (AppSimple.runAll (AppSimple.bootWorld (some sampleCatalog))
      AppSimple.raceEvents).app.selectedDuration = none ∧
    AppSimple.enabled
      (AppSimple.runAll (AppSimple.bootWorld (some sampleCatalog)) AppSimple.raceEvents)
      AppSimple.Event.startGeneration = true :=
  ⟨by decide,
    simple_reachable_runAll AppSimple.raceEvents _ (AppSimple.Reachable.boot _) (by decide),
    by decide, by decide, by decide, by decide⟩

/-- C8, amended: in every world of `App.jsx` reachable through the rendered
views, whenever the step is "generate", which is where the request is issued,
the selected theme is an id of the fetched catalog and the selected duration is
one of 30, 60, 120, 180, 240, 300; in every world of `App_simple.jsx` reachable
through the rendered views, a selected theme is an id of the fetched catalog and
a selected duration is one of the listed values. -/
theorem reachable_selection_is_valid (wa : App.World) (wb : AppSimple.World)
    (ha : App.Reachable wa) (hb : AppSimple.Reachable wb) :
    (wa.app.currentStep = Step.generate →
      ∃ t d, wa.app.selectedTheme = some t ∧ t ∈ themeIds wa.app.themes ∧
        wa.app.selectedDuration = some d ∧ d ∈ durations) ∧
    ((∀ t, wb.app.selectedTheme = some t → t ∈ themeIds wb.app.themes) ∧
      (∀ d, wb.app.selectedDuration = some d → d ∈ durations)) := by
  obtain ⟨a1, a2, _, _⟩ := app_reachable_inv wa ha
  refine ⟨?_, simple_reachable_inv wb hb⟩
  intro hg
  obtain ⟨t, ht, hmem⟩ := a1 (by simp [hg])
  obtain ⟨d, hd, hdm⟩ := a2 (Or.inl hg)
  exact ⟨t, d, ht, hmem, hd, hdm⟩

/-- Witness of the amended C8: in both variants the user picks "space", then
60 s. -/
theorem reachable_selection_is_valid_witness :
    ((App.runAll (App.boot (some sampleCatalog)) App.selectEvents).app.currentStep
        = Step.generate →
      ∃ t d,
        (App.runAll (App.boot (some sampleCatalog)) App.selectEvents).app.selectedTheme
          = some t ∧
        t ∈ themeIds (App.runAll (App.boot (some sampleCatalog)) App.selectEvents).app.themes ∧
        (App.runAll (App.boot (some sampleCatalog)) App.selectEvents).app.selectedDuration
          = some d ∧
        d ∈ durations) ∧
    ((∀ t,
        (AppSimple.runAll (AppSimple.bootWorld (some sampleCatalog))
          AppSimple.selectEvents).app.selectedTheme = some t →
        t ∈ themeIds
          (AppSimple.runAll (AppSimple.bootWorld (some sampleCatalog))
            AppSimple.selectEvents).app.themes) ∧
      (∀ d,
        (AppSimple.runAll (AppSimple.bootWorld (some sampleCatalog))
          AppSimple.selectEvents).app.selectedDuration = some d →
        d ∈ durations)) :=
  reachable_selection_is_valid
    (App.runAll (App.boot (some sampleCatalog)) App.selectEvents)
    (AppSimple.runAll (AppSimple.bootWorld (some sampleCatalog)) AppSimple.selectEvents)
    (app_reachable_runAll App.selectEvents _ (App.Reachable.boot _) (by decide))
    (simple_reachable_runAll AppSimple.selectEvents _ (AppSimple.Reachable.boot _) (by decide))

end Workflow
